import Mathlib

/-!
Shallow embedding of `app.py` (a Flask session-based login service) and
proofs about its authentication / session state machine.

The embedding follows the source code:
* the `users(id, username, password)` table is a `List User`;
* the Flask `session` dict is an association list of string keys to values;
* `api_login` is modelled with an explicit fault-injection point (`Fault`)
  standing for where an exception can be raised inside its `try` block,
  and a `ConnLedger` counting database connections opened and closed,
  mirroring the `get_db_connection()` / `conn.close()` calls on each path.
-/

set_option autoImplicit false

namespace LoginDemo

/-- A row of the `users` table: `{id, username, password}` (app.py line 234:
`SELECT id, username FROM users WHERE username = %s AND password = %s`). -/
structure User where
  id : Int
  username : String
  password : String
deriving Repr, DecidableEq

/-- A value stored in the Flask session dict: the code stores an integer
(`session['user_id'] = user_id`) or a string (`session['username'] = user_name`). -/
inductive SVal where
  | vInt (n : Int)
  | vStr (s : String)
deriving Repr, DecidableEq

/-- The Flask `session` dict, as an association list of key-value pairs. -/
abbrev Session := List (String × SVal)

/-- The initial session of a new client: empty (the ANONYMOUS state). -/
def emptySession : Session := []

/-- `session.get(k)`: first entry with key `k`, if any. -/
def sessionGet (s : Session) (k : String) : Option SVal :=
  (s.find? (fun kv => kv.1 == k)).map (fun kv => kv.2)

/-- `session[k] = v`: dict update (the new binding shadows any old one). -/
def sessionSet (s : Session) (k : String) (v : SVal) : Session :=
  (k, v) :: s.filter (fun kv => !(kv.1 == k))

/-- `k in session`: key membership. -/
def hasKey (s : Session) (k : String) : Bool :=
  (sessionGet s k).isSome

/-- `is_logged_in()` (app.py lines 112-123): `return 'user_id' in session`. -/
def is_logged_in (s : Session) : Bool :=
  hasKey s "user_id"

/-- The SQL `WHERE username = %s AND password = %s` predicate on one row. -/
def matchesCred (u p : String) (r : User) : Bool :=
  r.username == u && r.password == p

/-- `cursor.execute(query, (username, password)); user = cursor.fetchone()`
(app.py lines 238-243).  The credentials come from `data.get(...)` and may be
`None`; SQL equality with NULL holds of no row, so a missing credential
matches nothing.  `fetchone` returns the first matching row, as
`(id, username)`, or `None`. -/
def queryUser (users : List User) (u p : Option String) : Option (Int × String) :=
  match u, p with
  | some u, some p =>
      (users.find? (matchesCred u p)).map (fun r => (r.id, r.username))
  | _, _ => none

/-- Where, if anywhere, an exception is raised inside `api_login`'s `try`
block: none, at `get_db_connection()` (before a connection exists), or at
the query (after the connection was acquired). -/
inductive Fault where
  | fNone
  | atConnect (err : String)
  | atQuery (err : String)
deriving Repr, DecidableEq

/-- Database connections opened and closed during one `api_login` call. -/
structure ConnLedger where
  opened : Nat
  closed : Nat
deriving Repr, DecidableEq

/-- The observable outcome of one POST to `/api/login`: HTTP status, the
JSON body fields (`success`, `message`, and `username` when present), the
session after the call, and the connection ledger. -/
structure LoginOutcome where
  status : Nat
  success : Bool
  message : String
  username : Option String
  sess : Session
  conns : ConnLedger
deriving Repr, DecidableEq

/-- `api_login` (app.py lines 192-302).  The `try` body connects, queries,
closes the cursor and connection, then branches on the fetched row; the
`except` clause returns 500 with `'服务器错误: ' + str(e)`.  Note that the
`except` path performs no `conn.close()`: a connection acquired before the
fault is left open there. -/
def api_login (users : List User) (fp : Fault) (u p : Option String)
    (s : Session) : LoginOutcome :=
  match fp with
  | .atConnect err =>
      -- exception inside get_db_connection(): no connection was acquired
      { status := 500, success := false, message := "服务器错误: " ++ err
        username := none, sess := s, conns := ⟨0, 0⟩ }
  | .atQuery err =>
      -- exception after conn = get_db_connection(): the except block
      -- returns without closing the acquired connection
      { status := 500, success := false, message := "服务器错误: " ++ err
        username := none, sess := s, conns := ⟨1, 0⟩ }
  | .fNone =>
      match queryUser users u p with
      | some (user_id, user_name) =>
          -- session['user_id'] = user_id; session['username'] = user_name
          { status := 200, success := true, message := "登录成功！"
            username := some user_name
            sess := sessionSet (sessionSet s "user_id" (.vInt user_id))
              "username" (.vStr user_name)
            conns := ⟨1, 1⟩ }
      | none =>
          { status := 401, success := false, message := "用户名或密码错误，请重试"
            username := none, sess := s, conns := ⟨1, 1⟩ }

/-- The JSON body returned by GET `/api/check`. -/
inductive CheckResult where
  | loggedIn (username : Option SVal)
  | loggedOut
deriving Repr, DecidableEq

/-- `api_check` (app.py lines 309-326): `{'logged_in': True, 'username':
session.get('username')}` when logged in, else `{'logged_in': False}`. -/
def api_check (s : Session) : CheckResult :=
  if is_logged_in s then .loggedIn (sessionGet s "username") else .loggedOut

/-- The outcome of POST `/api/logout`: status, body, resulting session. -/
structure LogoutOutcome where
  status : Nat
  success : Bool
  message : String
  sess : Session
deriving Repr, DecidableEq

/-- `api_logout` (app.py lines 333-351): `session.clear()` then 200
`{'success': True, 'message': '已成功登出'}`. -/
def api_logout (s : Session) : LogoutOutcome :=
  { status := 200, success := true, message := "已成功登出", sess := [] }

/-- The result of an HTML page route: render a template or redirect. -/
inductive PageResult where
  | render (template : String) (username : SVal)
  | redirectTo (target : String)
deriving Repr, DecidableEq

/-- `home` (app.py lines 168-185): redirect to the login page when not
logged in, else render `home.html` with `session.get('username', '访客')`. -/
def home (s : Session) : PageResult :=
  if is_logged_in s then
    .render "home.html" ((sessionGet s "username").getD (.vStr "访客"))
  else
    .redirectTo "/login"

/-- The Auth Service operation of the spec, as implemented by the query and
branch of `api_login` (app.py lines 234-289): the classification of a
credential pair against the store, ignoring session and HTTP effects. -/
inductive AuthResult where
  | authenticated (user_id : Int) (username : String)
  | rejected
deriving Repr, DecidableEq

/-- `authenticate(username, password)`: `Authenticated{user_id, username}`
from the first row `fetchone` returns, else `Rejected`. -/
def authenticate (users : List User) (u p : Option String) : AuthResult :=
  match queryUser users u p with
  | some (i, n) => .authenticated i n
  | none => .rejected

/-! ### Session-dict lemmas -/

theorem sessionGet_nil (k : String) : sessionGet [] k = none := rfl

theorem sessionGet_set_self (s : Session) (k : String) (v : SVal) :
    sessionGet (sessionSet s k v) k = some v := by
  simp [sessionGet, sessionSet]

theorem find?_filter_ne (s : Session) (k k' : String) (h : k' ≠ k) :
    (s.filter (fun kv => !(kv.1 == k))).find? (fun kv => kv.1 == k') =
      s.find? (fun kv => kv.1 == k') := by
  induction s with
  | nil => rfl
  | cons kv t ih =>
    rcases eq_or_ne kv.1 k with hk | hk
    · have h2 : (kv.1 == k') = false := by
        rw [hk]
        simp
        exact fun e => h e.symm
      have h1 : (!(kv.1 == k)) = false := by simp [hk]
      simp [List.filter_cons, List.find?_cons, h1, h2, ih]
    · have h1 : (!(kv.1 == k)) = true := by simp [hk]
      rcases eq_or_ne kv.1 k' with hk2 | hk2
      · simp [List.filter_cons, List.find?_cons, h1, hk2, h]
      · have h2 : (kv.1 == k') = false := by simp [hk2]
        simp [List.filter_cons, List.find?_cons, h1, h2, ih]

theorem sessionGet_set_other (s : Session) (k k' : String) (v : SVal)
    (h : k' ≠ k) : sessionGet (sessionSet s k v) k' = sessionGet s k' := by
  have hne : (k == k') = false := by
    simp
    exact fun h2 => h h2.symm
  simp [sessionGet, sessionSet, List.find?, hne, find?_filter_ne s k k' h]

/-! ### Theorems about the claims -/

/-- C4: in every session state, `is_logged_in` is true exactly when the key
`user_id` is present, and `/api/check` answers `logged_in:true` with the
session's username exactly when `user_id` is present, `logged_in:false`
otherwise. -/
theorem check_logged_in_iff_user_id (s : Session) :
    (is_logged_in s = hasKey s "user_id")
    ∧ ((∃ u, api_check s = CheckResult.loggedIn u) ↔ hasKey s "user_id" = true)
    ∧ (api_check s = CheckResult.loggedOut ↔ hasKey s "user_id" = false)
    ∧ (hasKey s "user_id" = true →
        api_check s = CheckResult.loggedIn (sessionGet s "username")) := by
  unfold api_check is_logged_in
  by_cases h : hasKey s "user_id" = true
  · simp [h]
  · simp [h]

/-- Witness for `check_logged_in_iff_user_id` at a concrete session. -/
theorem check_logged_in_iff_user_id_witness :
    api_check [("user_id", SVal.vInt 1), ("username", SVal.vStr "alice")] =
      CheckResult.loggedIn (some (SVal.vStr "alice")) :=
  (check_logged_in_iff_user_id
    [("user_id", SVal.vInt 1), ("username", SVal.vStr "alice")]).2.2.2 (by decide)

/-- C5: GET `/home` renders the protected `home.html` view with the
session's username exactly when `user_id` is in the session; in every other
state it instead redirects to the login page. -/
theorem home_guard (s : Session) :
    ((∃ u, home s = PageResult.render "home.html" u) ↔ is_logged_in s = true)
    ∧ (home s = PageResult.redirectTo "/login" ↔ is_logged_in s = false)
    ∧ (is_logged_in s = true →
        home s = PageResult.render "home.html"
          ((sessionGet s "username").getD (SVal.vStr "访客"))) := by
  unfold home
  by_cases h : is_logged_in s = true
  · simp [h]
  · simp [h]

/-- Witness for `home_guard` at a concrete authenticated session. -/
theorem home_guard_witness :
    home [("user_id", SVal.vInt 1), ("username", SVal.vStr "alice")] =
      PageResult.render "home.html" (SVal.vStr "alice") :=
  (home_guard [("user_id", SVal.vInt 1), ("username", SVal.vStr "alice")]).2.2
    (by decide)

/-- C6: POST `/api/logout` always returns HTTP 200 with `success:true`,
leaves the session completely empty (hence ANONYMOUS), and is idempotent on
session state: running it from its own output changes nothing. -/
theorem api_logout_idempotent (s : Session) :
    (api_logout s).status = 200
    ∧ (api_logout s).success = true
    ∧ (api_logout s).sess = []
    ∧ is_logged_in (api_logout s).sess = false
    ∧ api_logout ((api_logout s).sess) = api_logout s := by
  refine ⟨rfl, rfl, rfl, ?_, rfl⟩
  show is_logged_in [] = false
  rfl

/-- C3: whatever fault is injected during `/api/login` — at connection time
or during the query — the handler answers HTTP 500 with message
`服务器错误: ` followed by the error text, never the 401 bad-credentials
answer, and leaves the session unchanged. -/
theorem api_login_fault_500 (users : List User) (u p : Option String)
    (s : Session) (err : String) :
    ((api_login users (Fault.atConnect err) u p s).status = 500
      ∧ (api_login users (Fault.atConnect err) u p s).success = false
      ∧ (api_login users (Fault.atConnect err) u p s).message =
          "服务器错误: " ++ err
      ∧ (api_login users (Fault.atConnect err) u p s).status ≠ 401
      ∧ (api_login users (Fault.atConnect err) u p s).sess = s)
    ∧ ((api_login users (Fault.atQuery err) u p s).status = 500
      ∧ (api_login users (Fault.atQuery err) u p s).success = false
      ∧ (api_login users (Fault.atQuery err) u p s).message =
          "服务器错误: " ++ err
      ∧ (api_login users (Fault.atQuery err) u p s).status ≠ 401
      ∧ (api_login users (Fault.atQuery err) u p s).sess = s) := by
  exact ⟨⟨rfl, rfl, rfl, by show (500 : Nat) ≠ 401; decide, rfl⟩,
    ⟨rfl, rfl, rfl, by show (500 : Nat) ≠ 401; decide, rfl⟩⟩

/-- The first row `fetchone` returns for a credential pair that occurs in
the store matches that pair, so its `username` field is the supplied one. -/
theorem find?_matchesCred (users : List User) (u p : String)
    (r : User) (hr : r ∈ users) (hu : r.username = u) (hp : r.password = p) :
    ∃ q, users.find? (matchesCred u p) = some q ∧ q.username = u ∧
      q.password = p := by
  have hsome : (users.find? (matchesCred u p)).isSome := by
    rw [List.find?_isSome]
    exact ⟨r, hr, by simp [matchesCred, hu, hp]⟩
  obtain ⟨q, hq⟩ := Option.isSome_iff_exists.mp hsome
  have hmatch := List.find?_some hq
  simp [matchesCred] at hmatch
  exact ⟨q, hq, hmatch.1, hmatch.2⟩

/-- The session written by a successful login answers `sessionGet` on both
keys with the stored pair. -/
theorem login_sess_get (s : Session) (i : Int) (n : String) :
    sessionGet (sessionSet (sessionSet s "user_id" (SVal.vInt i))
        "username" (SVal.vStr n)) "username" = some (SVal.vStr n)
    ∧ sessionGet (sessionSet (sessionSet s "user_id" (SVal.vInt i))
        "username" (SVal.vStr n)) "user_id" = some (SVal.vInt i) := by
  constructor
  · exact sessionGet_set_self _ _ _
  · rw [sessionGet_set_other _ _ _ _ (by decide), sessionGet_set_self]

/-- C1: when the submitted pair exactly matches a stored record, POST
`/api/login` answers HTTP 200 with `success:true` and the stored username,
writes `user_id` and `username` into the session, and afterwards
`is_logged_in` is true and `/api/check` reports `logged_in:true` with the
matching username. -/
theorem api_login_success (users : List User) (u p : String) (s : Session)
    (r : User) (hr : r ∈ users) (hu : r.username = u) (hp : r.password = p) :
    (api_login users Fault.fNone (some u) (some p) s).status = 200
    ∧ (api_login users Fault.fNone (some u) (some p) s).success = true
    ∧ (api_login users Fault.fNone (some u) (some p) s).username = some u
    ∧ (∃ i, sessionGet (api_login users Fault.fNone (some u) (some p) s).sess
        "user_id" = some (SVal.vInt i))
    ∧ sessionGet (api_login users Fault.fNone (some u) (some p) s).sess
        "username" = some (SVal.vStr u)
    ∧ is_logged_in (api_login users Fault.fNone (some u) (some p) s).sess = true
    ∧ api_check (api_login users Fault.fNone (some u) (some p) s).sess =
        CheckResult.loggedIn (some (SVal.vStr u)) := by
  obtain ⟨q, hq, hqu, hqp⟩ := find?_matchesCred users u p r hr hu hp
  have hquery : queryUser users (some u) (some p) = some (q.id, q.username) := by
    simp [queryUser, hq]
  obtain ⟨hn, hi⟩ := login_sess_get s q.id q.username
  subst hqu
  have hout : api_login users Fault.fNone (some q.username) (some p) s =
      { status := 200, success := true, message := "登录成功！",
        username := some q.username,
        sess := sessionSet (sessionSet s "user_id" (SVal.vInt q.id))
          "username" (SVal.vStr q.username), conns := ⟨1, 1⟩ } := by
    simp [api_login, hquery]
  rw [hout]
  refine ⟨rfl, rfl, rfl, ⟨q.id, hi⟩, hn, ?_, ?_⟩
  · simp [is_logged_in, hasKey, hi]
  · simp [api_check, is_logged_in, hasKey, hi, hn]

/-- Witness for `api_login_success`: the stored pair (alice, secret). -/
theorem api_login_success_witness :
    (api_login [⟨1, "alice", "secret"⟩] Fault.fNone (some "alice")
        (some "secret") []).status = 200
    ∧ api_check (api_login [⟨1, "alice", "secret"⟩] Fault.fNone (some "alice")
        (some "secret") []).sess = CheckResult.loggedIn (some (SVal.vStr "alice")) := by
  have h := api_login_success [⟨1, "alice", "secret"⟩] "alice" "secret" []
    ⟨1, "alice", "secret"⟩ (by simp) rfl rfl
  exact ⟨h.1, h.2.2.2.2.2.2⟩

/-- C2: when no stored record matches the submitted pair, POST `/api/login`
answers HTTP 401 with `success:false` and the bad-credentials message, and
the session is left exactly as it was. -/
theorem api_login_reject (users : List User) (u p : String) (s : Session)
    (h : ∀ r ∈ users, matchesCred u p r = false) :
    (api_login users Fault.fNone (some u) (some p) s).status = 401
    ∧ (api_login users Fault.fNone (some u) (some p) s).success = false
    ∧ (api_login users Fault.fNone (some u) (some p) s).message =
        "用户名或密码错误，请重试"
    ∧ (api_login users Fault.fNone (some u) (some p) s).sess = s := by
  have hfind : users.find? (matchesCred u p) = none := by
    rw [List.find?_eq_none]
    intro r hr
    simp [h r hr]
  have hquery : queryUser users (some u) (some p) = none := by
    simp [queryUser, hfind]
  simp [api_login, hquery]

/-- Witness for `api_login_reject`: a wrong password for a stored user. -/
theorem api_login_reject_witness :
    (api_login [⟨1, "alice", "secret"⟩] Fault.fNone (some "alice")
        (some "wrong") []).status = 401
    ∧ (api_login [⟨1, "alice", "secret"⟩] Fault.fNone (some "alice")
        (some "wrong") []).sess = [] := by
  have h := api_login_reject [⟨1, "alice", "secret"⟩] "alice" "wrong" []
    (by decide)
  exact ⟨h.1, h.2.2.2⟩

/-- C10: a request body lacking the `username` or `password` key yields a
`None` credential; the SQL comparison then matches no row, so the handler
answers 401 (not 500) and leaves the session unchanged. -/
theorem api_login_missing_cred (users : List User) (u p : Option String)
    (s : Session) (h : u = none ∨ p = none) :
    (api_login users Fault.fNone u p s).status = 401
    ∧ (api_login users Fault.fNone u p s).success = false
    ∧ (api_login users Fault.fNone u p s).message = "用户名或密码错误，请重试"
    ∧ (api_login users Fault.fNone u p s).sess = s
    ∧ (api_login users Fault.fNone u p s).status ≠ 500 := by
  have hquery : queryUser users u p = none := by
    rcases h with h | h
    · subst h
      cases p <;> rfl
    · subst h
      cases u <;> rfl
  norm_num [api_login, hquery]

/-- Witness for `api_login_missing_cred`: a body with only a password. -/
theorem api_login_missing_cred_witness :
    (api_login [⟨1, "alice", "secret"⟩] Fault.fNone none (some "secret")
        []).status = 401
    ∧ (api_login [⟨1, "alice", "secret"⟩] Fault.fNone none (some "secret")
        []).sess = [] := by
  have h := api_login_missing_cred [⟨1, "alice", "secret"⟩] none
    (some "secret") [] (Or.inl rfl)
  exact ⟨h.1, h.2.2.2.1⟩

/-- A store holding two identical credential rows, which the `users` table
does not forbid. -/
def dupStore : List User := [⟨1, "alice", "pw"⟩, ⟨2, "alice", "pw"⟩]

/-- C7 counterexample: with two matching rows in the store, `authenticate`
still returns `Authenticated` (the first row `fetchone` yields), although
the number of matching records is 2, not exactly one — so "Authenticated
iff exactly one record matches" fails on the code. -/
theorem authenticate_not_exactly_one :
    authenticate dupStore (some "alice") (some "pw") =
      AuthResult.authenticated 1 "alice"
    ∧ (dupStore.filter (matchesCred "alice" "pw")).length = 2 := by
  constructor <;> rfl

/-- C7 amended: `authenticate` returns `Authenticated` (with the id and
username of the first matching row) iff at least one record matches the
supplied pair, and `Rejected` iff zero records match. -/
theorem authenticate_iff_match (users : List User) (u p : String) :
    ((∃ i n, authenticate users (some u) (some p) =
        AuthResult.authenticated i n) ↔ ∃ r ∈ users, matchesCred u p r = true)
    ∧ (authenticate users (some u) (some p) = AuthResult.rejected ↔
        ∀ r ∈ users, matchesCred u p r = false) := by
  have h1 : (∃ i n, authenticate users (some u) (some p) =
      AuthResult.authenticated i n) ↔
      (users.find? (matchesCred u p)).isSome := by
    cases hf : users.find? (matchesCred u p) with
    | none => simp [authenticate, queryUser, hf]
    | some q => simp [authenticate, queryUser, hf]
  have h2 : authenticate users (some u) (some p) = AuthResult.rejected ↔
      users.find? (matchesCred u p) = none := by
    cases hf : users.find? (matchesCred u p) with
    | none => simp [authenticate, queryUser, hf]
    | some q => simp [authenticate, queryUser, hf]
  constructor
  · rw [h1, List.find?_isSome]
  · rw [h2, List.find?_eq_none]
    simp

/-- C8 counterexample: a fault during the query, after the connection was
acquired, reaches the `except` clause, which returns without any
`conn.close()`: one connection opened, zero closed. -/
theorem api_login_conn_leak :
    (api_login [] (Fault.atQuery "connection reset") (some "alice")
        (some "pw") []).conns.opened = 1
    ∧ (api_login [] (Fault.atQuery "connection reset") (some "alice")
        (some "pw") []).conns.closed = 0 :=
  ⟨rfl, rfl⟩

/-- C8 amended: on the success and rejection paths every acquired
connection is closed before the handler returns, and a fault at connect
time acquires nothing; but a fault after acquisition (during the query)
returns with the acquired connection still open. -/
theorem api_login_conn_release (users : List User) (u p : Option String)
    (s : Session) (err : String) :
    (api_login users Fault.fNone u p s).conns.closed =
      (api_login users Fault.fNone u p s).conns.opened
    ∧ (api_login users (Fault.atConnect err) u p s).conns = ⟨0, 0⟩
    ∧ (api_login users (Fault.atQuery err) u p s).conns = ⟨1, 0⟩ := by
  refine ⟨?_, rfl, rfl⟩
  cases hq : queryUser users u p with
  | none => simp [api_login, hq]
  | some v =>
    obtain ⟨i, n⟩ := v
    simp [api_login, hq]

/-- The session invariant relating the two keys login writes together:
`user_id` is present iff `username` holds a string value. -/
def SessionWF (s : Session) : Prop :=
  hasKey s "user_id" = true ↔ ∃ n, sessionGet s "username" = some (SVal.vStr n)

/-- C9: the invariant `SessionWF` holds of a fresh session and is preserved
by `/api/login` (both keys written together on success, nothing otherwise)
and `/api/logout` (both cleared together); consequently whenever
`/api/check` reports `logged_in:true`, the username it returns is a present,
non-null string. -/
theorem session_user_id_username_invariant :
    SessionWF emptySession
    ∧ (∀ users fp u p s, SessionWF s → SessionWF (api_login users fp u p s).sess)
    ∧ (∀ s, SessionWF (api_logout s).sess)
    ∧ (∀ s v, SessionWF s → api_check s = CheckResult.loggedIn v →
        ∃ n, v = some (SVal.vStr n)) := by
  refine ⟨?_, ?_, ?_, ?_⟩
  · simp [SessionWF, emptySession, hasKey, sessionGet]
  · intro users fp u p s hs
    cases fp with
    | atConnect err => simpa [api_login] using hs
    | atQuery err => simpa [api_login] using hs
    | fNone =>
      cases hq : queryUser users u p with
      | none => simpa [api_login, hq] using hs
      | some v =>
        obtain ⟨i, n⟩ := v
        obtain ⟨hn, hi⟩ := login_sess_get s i n
        simp [api_login, hq, SessionWF, hasKey, hn, hi]
  · intro s
    simp [SessionWF, api_logout, hasKey, sessionGet]
  · intro s v hs hc
    unfold api_check at hc
    by_cases hl : is_logged_in s = true
    · rw [if_pos hl] at hc
      obtain ⟨n, hn⟩ := hs.mp hl
      exact ⟨n, by rw [← (CheckResult.loggedIn.injEq _ _).mp hc, hn]⟩
    · rw [if_neg hl] at hc
      exact absurd hc (by simp)

/-- Witness for `session_user_id_username_invariant`: the invariant holds
after a successful login from the empty session. -/
theorem session_user_id_username_invariant_witness :
    SessionWF (api_login [⟨1, "alice", "secret"⟩] Fault.fNone (some "alice")
      (some "secret") []).sess :=
  session_user_id_username_invariant.2.1 [⟨1, "alice", "secret"⟩] Fault.fNone
    (some "alice") (some "secret") []
    (by simp [SessionWF, hasKey, sessionGet])

end LoginDemo
